import Mathlib

/-!
Verification development for the Slimey side-scrolling platformer.

The definitions below are a shallow embedding of the per-frame simulation
core found in `slime_platformer.py`, `world.py`, `enemy_logic.py` and the
configuration tables in `config.py`.  Python floats are modelled as
rationals (`ℚ`), pygame integer rectangles as records of integers, and the
Python `int(...)` conversion as truncation toward zero.  Per-frame stateful
code is modelled as explicit state-passing functions.
-/

namespace Slimey

/-- Python `int(x)` on a float: truncation toward zero. -/
def pyInt (q : ℚ) : ℤ := Int.tdiv q.num q.den

/-- The `clamp` helper from `slime_platformer.py`:
`mn if x < mn else mx if x > mx else x`. -/
def clamp (x mn mx : ℤ) : ℤ := if x < mn then mn else if mx < x then mx else x

/-- The `sign` helper from `slime_platformer.py`. -/
def sign (x : ℤ) : ℤ := if x < 0 then -1 else if 0 < x then 1 else 0

/-! Gameplay constants from `config.py`. -/

def GRAVITY : ℚ := 2200
def JUMP_STRENGTH : ℚ := -900
def PLAYER_MOVE_SPEED : ℚ := 480
def GAME_SPEED_BASE : ℚ := 220
def INVINCIBLE_TIME : ℚ := 1
def KNOCKBACK_TIME : ℚ := 11/50
def KNOCKBACK_SPEED : ℚ := 680
def DASH_SPEED : ℚ := 1100
def DASH_DURATION : ℚ := 1/4
def DASH_COOLDOWN : ℚ := 11/10
def SCREEN_SHAKE_HIT : ℚ := 1/4
def SCREEN_SHAKE_KILL : ℚ := 2/5
def BASE_MAX_HEALTH : ℤ := 3
def LEVEL_UP_EVERY_COINS : ℕ := 20

/-- A pygame rectangle: integer position and size. -/
structure Rect where
  x : ℤ
  y : ℤ
  w : ℤ
  h : ℤ
  deriving Repr, DecidableEq

def Rect.right (r : Rect) : ℤ := r.x + r.w

def Rect.bottom (r : Rect) : ℤ := r.y + r.h

def Rect.top (r : Rect) : ℤ := r.y

def Rect.left (r : Rect) : ℤ := r.x

/-- pygame `centerx`: `x + w // 2` (integer division). -/
def Rect.centerx (r : Rect) : ℤ := r.x + r.w / 2

def Rect.centery (r : Rect) : ℤ := r.y + r.h / 2

/-- Build a rect of size `w × h` whose pygame `center` is set to `(cx, cy)`,
as done by `r.center = (x, y)` in `apply_custom_level_to_state`. -/
def mkRectCenter (cx cy w h : ℤ) : Rect :=
  { x := cx - w / 2, y := cy - h / 2, w := w, h := h }

/-- pygame `Rect.colliderect`: strict overlap on both axes. -/
def collideRect (a b : Rect) : Bool :=
  decide (a.x < b.x + b.w) && decide (b.x < a.x + a.w) &&
  decide (a.y < b.y + b.h) && decide (b.y < a.y + a.h)

/-! The `ENEMY_CONFIG` table from `config.py`. -/

structure EnemyCfg where
  spawnType : String
  spawnChance : ℚ
  damage : ℤ
  minLevel : ℕ
  speed : ℚ
  deriving Repr, DecidableEq

def ENEMY_CONFIG : List (String × EnemyCfg) :=
  [ ("walker", { spawnType := "platform", spawnChance := 0, damage := 1, minLevel := 1, speed := 140 }),
    ("flyer",  { spawnType := "air", spawnChance := 2/25, damage := 1, minLevel := 2, speed := 180 }),
    ("jumper", { spawnType := "ground", spawnChance := 1/25, damage := 2, minLevel := 3, speed := 160 }),
    ("brute",  { spawnType := "ground", spawnChance := 0, damage := 3, minLevel := 1, speed := 110 }),
    ("swift",  { spawnType := "ground", spawnChance := 0, damage := 1, minLevel := 1, speed := 220 }) ]

/-- `config.ENEMY_CONFIG.get(kind)`. -/
def lookupCfg (kind : String) : Option EnemyCfg :=
  (ENEMY_CONFIG.find? (fun p => p.1 == kind)).map Prod.snd

def isCfgKind (kind : String) : Bool := (lookupCfg kind).isSome

/-- `ENEMY_BEHAVIOR_CONFIG["jumper"]` fields used by the jump behavior. -/
def jumperJumpInterval : ℚ := 2

def jumperJumpForce : ℚ := -750

/-- `ENEMY_LEVEL_SCALING` from `config.py`: `(level_threshold, spawn_scale_per_level)`. -/
def levelScalingCfg (kind : String) : Option (ℕ × ℚ) :=
  if kind = "walker" then some (3, 3/25)
  else if kind = "flyer" then some (4, 3/20)
  else none

/-- The `by_level` part of `LEVEL_ENEMY_CONFIG`. -/
def byLevelEnabledKinds (level : ℕ) : Option (List String) :=
  if level = 1 then some ["walker"]
  else if level = 2 then some ["walker", "flyer"]
  else if level = 3 then some ["walker", "flyer", "jumper"]
  else none

/-- The `default.enabled_kinds` part of `LEVEL_ENEMY_CONFIG`. -/
def defaultEnabledKinds : List String := ["walker", "flyer", "jumper"]

/-- `PLATFORM_TYPE_CONFIG["fragile"]["hits_to_break"]`. -/
def hitsToBreak : ℕ := 1

/-- `PLATFORM_TYPE_CONFIG["bounce"]["bounce_mult"]`. -/
def bounceMult : ℚ := 7/5

/-- `PLATFORM_TYPE_CONFIG["fall"]["fall_delay"]`. -/
def fallDelay : ℚ := 2/5

/-! Functions of `enemy_logic.py`. -/

/-- `get_enabled_enemy_kinds` from `enemy_logic.py`: per-level override when
present and non-empty, otherwise the default list; both filtered to kinds
present in `ENEMY_CONFIG`. -/
def getEnabledEnemyKinds (level : ℕ) : List String :=
  match byLevelEnabledKinds level with
  | some kinds =>
      if kinds.isEmpty then defaultEnabledKinds.filter isCfgKind
      else kinds.filter isCfgKind
  | none => defaultEnabledKinds.filter isCfgKind

/-- `get_base_spawn_weight` from `enemy_logic.py`: the kind's `spawn_chance`
(default 0.05 if the kind is unknown), replaced by 0.02 when not positive. -/
def getBaseSpawnWeight (kind : String) : ℚ :=
  let base : ℚ :=
    match lookupCfg kind with
    | some c => c.spawnChance
    | none => 1/20
  if 0 < base then base else 1/50

/-- `get_level_scaled_spawn_weight` from `enemy_logic.py`. -/
def getLevelScaledSpawnWeight (kind : String) (level : ℕ) : ℚ :=
  let base := getBaseSpawnWeight kind
  match levelScalingCfg kind with
  | none => base
  | some (threshold, perLevel) =>
      if level ≤ threshold ∨ perLevel ≤ 0 then base
      else base * (1 + max 0 ((level : ℚ) - (threshold : ℚ)) * perLevel)

/-- `build_spawn_table` from `enemy_logic.py`. -/
def buildSpawnTable (level : ℕ) : List (String × ℚ) :=
  (getEnabledEnemyKinds level).filterMap fun k =>
    let w := getLevelScaledSpawnWeight k level
    if 0 < w then some (k, w) else none

def weightSum (table : List (String × ℚ)) : ℚ := (table.map Prod.snd).sum

/-- The accumulator loop inside `pick_enemy_kind`: returns the first entry
whose cumulative weight reaches `r`. -/
def pickScan (r : ℚ) : ℚ → List (String × ℚ) → Option String
  | _, [] => none
  | acc, (k, w) :: rest => if r ≤ acc + w then some k else pickScan r (acc + w) rest

/-- `pick_enemy_kind` from `enemy_logic.py`; `rngVal` models the
`random.random()` draw in `[0, 1)`. -/
def pickEnemyKind (level : ℕ) (rngVal : ℚ) : Option String :=
  let table := buildSpawnTable level
  if table.isEmpty then none
  else
    let total := weightSum table
    if total ≤ 0 then none
    else
      match pickScan (rngVal * total) 0 table with
      | some k => some k
      | none => table.getLast?.map Prod.fst

/-! The per-frame ground/air enemy spawn roll in `main`
(`slime_platformer.py`, the SPAWN ENEMIES section).  The loop iterates
over all of `ENEMY_CONFIG`; a kind with `spawn_type` `"air"` or `"ground"`
spawns when `random.random() < spawn_chance * enemy_spawn_mult *
world_enemy_spawn_mult * dt_scaled`. -/

/-- Whether the per-frame enemy spawn roll fires for `kind` given the random
draw `r` and the multipliers of the frame.  This is the exact gate of the
main-loop spawn section; note it takes no level argument. -/
def spawnRollPasses (kind : String) (r esm wesm dtScaled : ℚ) : Bool :=
  match lookupCfg kind with
  | none => false
  | some c =>
      (c.spawnType == "air" || c.spawnType == "ground") &&
      decide (r < c.spawnChance * esm * wesm * dtScaled)

/-! Level-up check of `main` (`slime_platformer.py`, LEVEL UP section). -/

/-- The per-frame level-up check: `expected_level = 1 + coins // 20`; the
level is overwritten with `expected_level` only when it is greater. -/
def levelUpCheck (coins level : ℕ) : ℕ :=
  let expected := 1 + coins / LEVEL_UP_EVERY_COINS
  if level < expected then expected else level

/-- Number of level-up bursts fired by the check (the `for _ in range(diff)`
loop): the full difference in a single frame. -/
def levelUpBursts (coins level : ℕ) : ℕ :=
  let expected := 1 + coins / LEVEL_UP_EVERY_COINS
  if level < expected then expected - level else 0

/-- Whether the check resets the `boss_wave_spawned` guard this frame. -/
def levelUpResetsBossGuard (coins level : ℕ) : Bool :=
  let expected := 1 + coins / LEVEL_UP_EVERY_COINS
  decide (level < expected)

/-- Level after frame `n` of a run: the run starts at `initLevel` and frame
`n` sees `cs n` collected coins. -/
def runLevels (initLevel : ℕ) (cs : ℕ → ℕ) : ℕ → ℕ
  | 0 => levelUpCheck (cs 0) initLevel
  | n + 1 => levelUpCheck (cs (n + 1)) (runLevels initLevel cs n)

/-! Jump handling of `main` (`slime_platformer.py`, Jump section).  The
`jump_down` flag is set by `KEYDOWN` events and cleared by `KEYUP` events;
it is never cleared per frame, so it models a held key, not an edge. -/

inductive KeyEvent where
  | keydown
  | keyup
  deriving Repr, DecidableEq

/-- The value of `jump_down` after one frame's event processing. -/
def heldAfter (events : List KeyEvent) (held : Bool) : Bool :=
  events.foldl (fun _prev e => match e with | .keydown => true | .keyup => false) held

structure JumpState where
  velY : ℚ
  onGround : Bool
  jumpCount : ℕ
  deriving Repr, DecidableEq

/-- The jump block of the frame update: runs when `jump_down` is true;
a grounded player always jumps, an airborne player double-jumps at 0.9×
strength when the upgrade is owned and `jump_count == 1`. -/
def jumpPhase (jumpDown doubleJumpOwned : Bool) (jumpMult : ℚ)
    (s : JumpState) : JumpState :=
  if jumpDown then
    if s.onGround then
      { velY := JUMP_STRENGTH * jumpMult, onGround := false, jumpCount := 1 }
    else if doubleJumpOwned && s.jumpCount == 1 then
      { velY := JUMP_STRENGTH * (9/10) * jumpMult, onGround := s.onGround, jumpCount := 2 }
    else s
  else s

/-! Damage resolution of `main` (`slime_platformer.py`, DAMAGE from enemies
section). -/

structure Enemy where
  kind : String
  rect : Rect
  deriving Repr, DecidableEq

/-- `config.ENEMY_CONFIG[kind]["damage"]` (0 stands for the unknown-kind
case, which would raise in Python and never occurs for spawned enemies). -/
def damageOf (kind : String) : ℤ :=
  match lookupCfg kind with
  | some c => c.damage
  | none => 0

/-- `int(dmg * settings["enemy_damage_mult"] * world_enemy_damage_mult)`. -/
def enemyDamage (kind : String) (edm wedm : ℚ) : ℤ :=
  pyInt ((damageOf kind : ℚ) * edm * wedm)

structure DmgState where
  health : ℤ
  tookDamage : Bool
  invTimer : ℚ
  knockTimer : ℚ
  knockDx : ℚ
  shakeTimer : ℚ
  deriving Repr, DecidableEq

/-- One hit applied inside the damage loop. -/
def applyHit (scale edm wedm : ℚ) (playerRect : Rect) (e : Enemy)
    (s : DmgState) : DmgState :=
  { health := s.health - enemyDamage e.kind edm wedm,
    tookDamage := true,
    invTimer := INVINCIBLE_TIME,
    knockTimer := KNOCKBACK_TIME,
    knockDx := -KNOCKBACK_SPEED * scale * (sign (playerRect.centerx - e.rect.centerx) : ℚ),
    shakeTimer := SCREEN_SHAKE_HIT }

/-- The body of the `for e in enemies_list` damage loop: every enemy whose
rectangle collides with the player applies its hit; there is no early exit. -/
def damageFold (scale edm wedm : ℚ) (playerRect : Rect)
    (enemies : List Enemy) (s : DmgState) : DmgState :=
  enemies.foldl
    (fun st e => if collideRect e.rect playerRect then applyHit scale edm wedm playerRect e st else st)
    s

/-- The damage-resolution step: skipped entirely (except for the timer
decrement) while `invincible_timer > 0`. -/
def damageStep (scale edm wedm dt : ℚ) (playerRect : Rect)
    (enemies : List Enemy) (s : DmgState) : DmgState :=
  if 0 < s.invTimer then { s with invTimer := s.invTimer - dt }
  else damageFold scale edm wedm playerRect enemies s

/-- The KILL check of `main`: `health <= 0` transitions to the terminal
game-over state. -/
def killTriggers (health : ℤ) : Bool := decide (health ≤ 0)

/-- The HUD health display: `display_health = clamp(health, 0, min(max_health, 10))`. -/
def displayHealth (health maxHealth : ℤ) : ℤ := clamp health 0 (min maxHealth 10)

/-! Horizontal player position over one frame of `main`: dash displacement,
regular movement, the clamp to the playfield, then (after damage
resolution) the knockback displacement, in source order. -/

/-- Player x after the dash/move/clamp block (`slime_platformer.py`,
DASH and Clamp x sections).  `margin = int(40 * scale_factor)`. -/
def xAfterClamp (x width screenW margin : ℤ) (dashActive : Bool)
    (dashDir : ℤ) (moveX dtScaled : ℚ) : ℤ :=
  let x1 := if dashActive then x + pyInt ((dashDir : ℚ) * DASH_SPEED * dtScaled) else x
  let x2 := x1 + pyInt moveX
  clamp x2 margin (screenW - width)

/-- Player x at the end of the frame: the knockback displacement is added
after the clamp (Knockback section) and is not re-clamped. -/
def xEndOfFrame (x width screenW margin : ℤ) (dashActive : Bool)
    (dashDir : ℤ) (moveX dtScaled : ℚ) (knockTimer knockDx : ℚ) : ℤ :=
  let xc := xAfterClamp x width screenW margin dashActive dashDir moveX dtScaled
  if 0 < knockTimer then xc + pyInt (knockDx * dtScaled) else xc

/-! Platform update and stand-on passes of `main` (`slime_platformer.py`,
Platforms update and Stand on platform sections). -/

structure Plat where
  rect : Rect
  ptype : String
  vx : ℚ
  vy : ℚ
  fallStarted : Bool
  fallTimer : ℚ
  fragileHits : ℕ
  depth : ℚ
  deriving Repr, DecidableEq

/-- One platform through the update pass: scroll and drift movement, the
fall-type timer/gravity, then removal of broken fragile platforms and of
off-screen platforms (`none` = dropped from the list). -/
def platUpdateOne (gameSpeed dtScaled : ℚ) (screenH : ℤ) (p : Plat) : Option Plat :=
  let x1 := p.rect.x - pyInt (gameSpeed * dtScaled)
  let x2 := x1 + pyInt (p.vx * dtScaled)
  let fallState :=
    if p.ptype == "fall" && p.fallStarted then
      let t := p.fallTimer + dtScaled
      if fallDelay < t then
        let vy := p.vy + GRAVITY * (9/10) * dtScaled
        (t, vy, pyInt (vy * dtScaled))
      else (t, p.vy, (0 : ℤ))
    else (p.fallTimer, p.vy, (0 : ℤ))
  let r : Rect := { p.rect with x := x2, y := p.rect.y + fallState.2.2 }
  if p.ptype == "fragile" && decide (hitsToBreak ≤ p.fragileHits) then none
  else if r.right < -200 ∨ screenH + 200 < r.top then none
  else some { p with rect := r, fallTimer := fallState.1, vy := fallState.2.1 }

/-- The platform update pass over the whole list. -/
def platsUpdatePass (gameSpeed dtScaled : ℚ) (screenH : ℤ)
    (plats : List Plat) : List Plat :=
  plats.filterMap (platUpdateOne gameSpeed dtScaled screenH)

structure StandState where
  player : Rect
  velY : ℚ
  onGround : Bool
  deriving Repr, DecidableEq

/-- The landing window test of the stand-on loop. -/
def standingOn (ss : StandState) (p : Plat) : Bool :=
  decide (ss.player.bottom ≤ p.rect.top + 10) &&
  decide (p.rect.top - 15 ≤ ss.player.bottom) &&
  decide (p.rect.left < ss.player.centerx) &&
  decide (ss.player.centerx < p.rect.right) &&
  decide (0 ≤ ss.velY)

/-- One iteration of the stand-on loop: snap the player to the platform
top, zero vertical velocity, ground the player, and apply the platform
type effect (bounce relaunch, fall arming, fragile hit count). -/
def standOnStep (ss : StandState) (p : Plat) : StandState × Plat :=
  if standingOn ss p then
    let player := { ss.player with y := p.rect.top - ss.player.h }
    let velY : ℚ :=
      if p.ptype == "bounce" then JUMP_STRENGTH * bounceMult else 0
    let p1 :=
      if p.ptype == "fall" then { p with fallStarted := true }
      else if p.ptype == "fragile" then { p with fragileHits := p.fragileHits + 1 }
      else p
    ({ player := player, velY := velY, onGround := true }, p1)
  else (ss, p)

/-- The stand-on pass over the platform list, threading the player state
left to right as the source loop does. -/
def standOnPass (ss : StandState) :
    List Plat → StandState × List Plat
  | [] => (ss, [])
  | p :: rest =>
      let (ss1, p1) := standOnStep ss p
      let (ss2, rest1) := standOnPass ss1 rest
      (ss2, p1 :: rest1)

/-! Ground-enemy spawning and the jumper behavior from `world.py`. -/

structure GEnemy where
  kind : String
  rect : Rect
  vx : ℚ
  vy : ℚ
  t : ℚ
  state : String
  baseY : ℚ
  jumpCooldown : Option ℚ
  deriving Repr, DecidableEq

/-- `_make_enemy_rect`: sprite size, or the `int(48 * scale_factor)` square
fallback. -/
def makeEnemyRect (spriteSize : Option (ℤ × ℤ)) (scale : ℚ) : Rect :=
  match spriteSize with
  | some (w, h) => { x := 0, y := 0, w := w, h := h }
  | none =>
      let s := pyInt (48 * scale)
      { x := 0, y := 0, w := s, h := s }

/-- `spawn_ground_enemy` from `world.py`; `rx` models the
`random.randint(int(30*scale), int(160*scale))` draw.  Note the
`jump_cooldown` field is set to `0.0`, not to a random value. -/
def spawnGroundEnemy (kind : String) (spriteSize : Option (ℤ × ℤ))
    (screenW screenH : ℤ) (scale : ℚ) (rx : ℤ) : Option GEnemy :=
  match lookupCfg kind with
  | none => none
  | some cfg =>
      let r0 := makeEnemyRect spriteSize scale
      let r := { r0 with y := screenH - r0.h, x := screenW + rx }
      some { kind := kind, rect := r, vx := -cfg.speed, vy := 0, t := 0,
             state := "run", baseY := (r.centery : ℚ), jumpCooldown := some 0 }

/-- Modelled from the spec: the claimed `random.uniform(0.0, jump_interval)`
initialization of the jumper cooldown, for an underlying uniform draw
`u ∈ [0, 1]`.  (The source's `spawn_ground_enemy` does not perform it.) -/
def specUniformCooldownInit (u : ℚ) : ℚ := u * jumperJumpInterval

/-- The `"jump"` branch of `_update_enemy_behavior` in `world.py`.  `u` is
the uniform draw of the `enemy.get("jump_cooldown", random.uniform(...))`
fallback, used only when the field is absent.  Returns the updated enemy
and the `remove` flag. -/
def jumperUpdate (e : GEnemy) (dt gameSpeed scale : ℚ)
    (screenW screenH : ℤ) (u : ℚ) : GEnemy × Bool :=
  let t := e.t + dt
  let speed : ℚ := match lookupCfg e.kind with | some c => c.speed | none => 130
  let jumpForce := jumperJumpForce * scale
  let x := e.rect.x - pyInt ((speed + gameSpeed * (7/10)) * dt)
  let cd0 := e.jumpCooldown.getD (specUniformCooldownInit u)
  let cd1 := cd0 - dt
  let vycd : ℚ × ℚ := if cd1 ≤ 0 then (jumpForce, jumperJumpInterval) else (e.vy, cd1)
  let vy2 := vycd.1 + GRAVITY * (9/10) * dt
  let y1 := e.rect.y + pyInt (vy2 * dt)
  let yvy : ℤ × ℚ := if screenH ≤ y1 + e.rect.h then (screenH - e.rect.h, 0) else (y1, vy2)
  let r : Rect := { e.rect with x := x, y := yvy.1 }
  let remove := decide (r.right < -120) || decide (screenW + 200 < r.left) ||
      decide (screenH + 200 < r.top) || decide (r.bottom < -200)
  ({ e with rect := r, t := t, vy := yvy.2, jumpCooldown := some vycd.2 }, remove)

/-- Convenience projection: whether the cooldown fired this frame. -/
def jumperJumped (e : GEnemy) (dt : ℚ) (u : ℚ) : Bool :=
  decide (e.jumpCooldown.getD (specUniformCooldownInit u) - dt ≤ 0)

/-! `apply_custom_level_to_state` from `slime_platformer.py`. -/

structure PlatEntry where
  x : ℤ
  y : ℤ
  w : ℤ
  h : ℤ
  ptype : String
  deriving Repr, DecidableEq

structure CoinEntry where
  x : ℤ
  y : ℤ
  deriving Repr, DecidableEq

structure EnemyEntry where
  x : ℤ
  y : ℤ
  kind : String
  deriving Repr, DecidableEq

structure LevelData where
  platforms : List PlatEntry
  coins : List CoinEntry
  enemies : List EnemyEntry
  deriving Repr, DecidableEq

structure CEnemy where
  kind : String
  rect : Rect
  vx : ℚ
  vy : ℚ
  t : ℚ
  state : String
  baseY : ℚ
  deriving Repr, DecidableEq

/-- The slice of the per-run state dictionary (`reset_state` in `world.py`)
relevant to custom-level loading. -/
structure RState where
  platforms : List Plat
  coins : List Rect
  enemies : List CEnemy
  health : ℤ
  maxHealth : ℤ
  level : ℕ
  coinsCollectedRun : ℕ
  invincibleTimer : ℚ
  deriving Repr, DecidableEq

/-- `reset_state` restricted to the fields above. -/
def resetState (maxHealth : ℤ) : RState :=
  { platforms := [], coins := [], enemies := [], health := maxHealth,
    maxHealth := maxHealth, level := 1, coinsCollectedRun := 0,
    invincibleTimer := 0 }

/-- A custom-level platform entry turned into a live platform; `depthDraw`
models the cosmetic `random.uniform(0.9, 1.1)` jitter. -/
def customPlat (depthDraw : ℚ) (p : PlatEntry) : Plat :=
  { rect := { x := p.x, y := p.y, w := p.w, h := p.h }, ptype := p.ptype,
    vx := 0, vy := 0, fallStarted := false, fallTimer := 0, fragileHits := 0,
    depth := depthDraw }

/-- Coin size: the loaded coin sprite's size or the `int(32 * scale)` square. -/
def coinSizeOf (coinImg : Option (ℤ × ℤ)) (scale : ℚ) : ℤ × ℤ :=
  match coinImg with
  | some wh => wh
  | none => let s := pyInt (32 * scale); (s, s)

/-- A custom-level coin entry turned into a rect centered at `(x, y)`. -/
def customCoin (coinImg : Option (ℤ × ℤ)) (scale : ℚ) (c : CoinEntry) : Rect :=
  let wh := coinSizeOf coinImg scale
  mkRectCenter c.x c.y wh.1 wh.2

/-- A custom-level enemy entry turned into a live enemy: sprite-sized (or
`int(48 * scale)` fallback) rect centered at `(x, y)`, zero velocity,
idle state. -/
def customEnemy (sprites : String → Option (ℤ × ℤ)) (scale : ℚ)
    (e : EnemyEntry) : CEnemy :=
  let wh : ℤ × ℤ :=
    match sprites e.kind with
    | some wh => wh
    | none => let s := pyInt (48 * scale); (s, s)
  let r := mkRectCenter e.x e.y wh.1 wh.2
  { kind := e.kind, rect := r, vx := 0, vy := 0, t := 0, state := "idle",
    baseY := (r.centery : ℚ) }

/-- `apply_custom_level_to_state`: overwrites exactly the platform, coin and
enemy collections of the run state with the custom-level data; `depthDraws`
supplies the per-platform cosmetic depth jitter. -/
def applyCustomLevelToState (data : LevelData) (coinImg : Option (ℤ × ℤ))
    (sprites : String → Option (ℤ × ℤ)) (scale : ℚ) (depthDraws : ℕ → ℚ)
    (st : RState) : RState :=
  { st with
    platforms := (data.platforms.enum).map (fun ie => customPlat (depthDraws ie.1) ie.2),
    coins := data.coins.map (customCoin coinImg scale),
    enemies := data.enemies.map (customEnemy sprites scale) }

end Slimey

namespace Slimey

/-! Claim C1: the level-up check. -/

/-- The level-up check computes the max of the current level and the coin
derived expected level. -/
lemma levelUpCheck_eq_max (coins level : ℕ) :
    levelUpCheck coins level = max level (1 + coins / LEVEL_UP_EVERY_COINS) := by
  unfold levelUpCheck
  dsimp only
  split <;> omega

/-- A clamped value lies between its bounds when they are ordered. -/
lemma clamp_mem (x mn mx : ℤ) (h : mn ≤ mx) :
    mn ≤ clamp x mn mx ∧ clamp x mn mx ≤ mx := by
  unfold clamp
  split
  · omega
  · split <;> omega

/-- C1 counterexample: a run started from the level-select screen begins at
the chosen level (here 5) with zero coins collected; after the level-up
check the level is still 5, not `1 + floor(0 / LEVEL_UP_EVERY_COINS) = 1`,
so the claimed equality does not hold for every run. -/
theorem c1_levelselect_counterexample :
    levelUpCheck 0 5 = 5 ∧ 1 + 0 / LEVEL_UP_EVERY_COINS ≠ 5 := by
  constructor
  · decide
  · decide

/-- C1 (amended): after every level-up check the level equals
`max(previous level, 1 + floor(coins / LEVEL_UP_EVERY_COINS))`; hence it
never decreases, it advances by the full difference in a single check, and
for every run that starts at level 1 (the Play path) with a non-decreasing
coin count the claimed equality `level = 1 + floor(coins / LEVEL_UP_EVERY_COINS)`
holds after every frame's check. -/
theorem c1_level_up_check (coins level : ℕ) (cs : ℕ → ℕ) (hmono : Monotone cs) :
    levelUpCheck coins level = max level (1 + coins / LEVEL_UP_EVERY_COINS) ∧
    level ≤ levelUpCheck coins level ∧
    levelUpBursts coins level = levelUpCheck coins level - level ∧
    (∀ n, runLevels 1 cs n = 1 + cs n / LEVEL_UP_EVERY_COINS) := by
  refine ⟨levelUpCheck_eq_max coins level, ?_, ?_, ?_⟩
  · rw [levelUpCheck_eq_max]
    omega
  · rw [levelUpCheck_eq_max]
    unfold levelUpBursts
    dsimp only
    split <;> omega
  · intro n
    induction n with
    | zero =>
        show levelUpCheck (cs 0) 1 = _
        rw [levelUpCheck_eq_max]
        exact Nat.max_eq_right (Nat.le_add_right 1 _)
    | succ n ih =>
        show levelUpCheck (cs (n + 1)) (runLevels 1 cs n) = _
        rw [ih, levelUpCheck_eq_max]
        have hdiv : cs n / LEVEL_UP_EVERY_COINS ≤ cs (n + 1) / LEVEL_UP_EVERY_COINS :=
          Nat.div_le_div_right (hmono (Nat.le_succ n))
        exact Nat.max_eq_right (Nat.add_le_add_left hdiv 1)

/-- Witness for C1 at a concrete run: 45 coins at level 2 advance to level 3
(two thresholds crossed at once would also advance fully), and a Play run
whose coin count is the frame index sits at the derived level at frame 40. -/
theorem c1_level_up_check_witness :
    levelUpCheck 45 2 = max 2 (1 + 45 / LEVEL_UP_EVERY_COINS) ∧
    runLevels 1 (fun n => n) 40 = 1 + 40 / LEVEL_UP_EVERY_COINS := by
  have h := c1_level_up_check 45 2 (fun n => n) (fun _ _ hab => hab)
  exact ⟨h.1, h.2.2.2 40⟩

/-! Claim C5: horizontal clamping. -/

/-- C5 counterexample: with the player at the left margin (x = 40, margin
40, screen 1920, width 60), no dash and no movement, an active knockback of
`-680` px/s over a 1/60 s frame moves the player to x = 29, beyond the left
margin — the knockback displacement is applied after the clamp and is not
re-clamped, so the end-of-frame position can cross the playfield margins. -/
theorem c5_knockback_counterexample :
    xEndOfFrame 40 60 1920 40 false 1 0 (1/60) (1/10) (-680) = 29 ∧
    (29 : ℤ) < 40 := by
  constructor
  · show (if (0 : ℚ) < 1/10 then _ else _) = _
    rw [if_pos (by norm_num)]
    have h1 : xAfterClamp 40 60 1920 40 false 1 0 (1/60) = 40 := by
      unfold xAfterClamp clamp
      norm_num [pyInt]
    rw [h1]
    norm_num [pyInt]
    decide
  · decide

/-- C5 (amended): the clamp in the movement block keeps the player's x
within `[margin, screenW - width]` whatever movement or dash displacement
was applied that frame, and the end-of-frame position equals that clamped
position whenever no knockback is active; an active knockback's
displacement is applied after the clamp and may leave the interval. -/
theorem c5_x_clamped (x width screenW margin : ℤ) (dashActive : Bool)
    (dashDir : ℤ) (moveX dtScaled knockTimer knockDx : ℚ)
    (hm : margin ≤ screenW - width) :
    margin ≤ xAfterClamp x width screenW margin dashActive dashDir moveX dtScaled ∧
    xAfterClamp x width screenW margin dashActive dashDir moveX dtScaled ≤ screenW - width ∧
    (knockTimer ≤ 0 →
      xEndOfFrame x width screenW margin dashActive dashDir moveX dtScaled knockTimer knockDx =
        xAfterClamp x width screenW margin dashActive dashDir moveX dtScaled) := by
  refine ⟨?_, ?_, ?_⟩
  · exact (clamp_mem _ _ _ hm).1
  · exact (clamp_mem _ _ _ hm).2
  · intro hk
    unfold xEndOfFrame
    rw [if_neg (not_lt.mpr hk)]

/-- Witness for C5 at concrete values: margin 40, screen 1920, width 60,
no knockback. -/
theorem c5_x_clamped_witness :
    40 ≤ xAfterClamp 500 60 1920 40 true 1 (7/2) (1/60) ∧
    xAfterClamp 500 60 1920 40 true 1 (7/2) (1/60) ≤ 1920 - 60 ∧
    xEndOfFrame 500 60 1920 40 true 1 (7/2) (1/60) 0 (-680) =
      xAfterClamp 500 60 1920 40 true 1 (7/2) (1/60) := by
  have h := c5_x_clamped 500 60 1920 40 true 1 (7/2) (1/60) 0 (-680) (by decide)
  exact ⟨h.1, h.2.1, h.2.2 (by norm_num)⟩

/-! Claim C8: level enablement and the per-frame spawn roll. -/

/-- C8 counterexample: at level 1 the per-level enablement config enables
only `walker`, yet the per-frame spawn roll of the main loop — which
iterates all of `ENEMY_CONFIG` and never consults the enablement config —
can spawn a `flyer` (draw 0 with unit multipliers and a 1/60 s frame). -/
theorem c8_disabled_kind_spawns_counterexample :
    spawnRollPasses "flyer" 0 1 1 (1/60) = true ∧
    "flyer" ∉ getEnabledEnemyKinds 1 := by
  constructor
  · show (match lookupCfg "flyer" with
      | none => false
      | some c =>
          (c.spawnType == "air" || c.spawnType == "ground") &&
          decide ((0 : ℚ) < c.spawnChance * 1 * 1 * (1/60))) = true
    have h : lookupCfg "flyer" =
        some { spawnType := "air", spawnChance := 2/25, damage := 1, minLevel := 2, speed := 180 } := by
      rfl
    rw [h]
    norm_num
  · decide

/-- C8 (amended): the main loop's per-frame roll is gated only by the
kind's `spawn_type` and the probability product; it takes no level
argument, so every configured air or ground kind with a positive
probability product can spawn at any level regardless of the per-level
enablement list (`get_enabled_enemy_kinds` exists in `enemy_logic.py` but
is not called by this roll). -/
theorem c8_roll_ignores_enablement (kind : String) (c : EnemyCfg)
    (esm wesm dtScaled : ℚ) (hc : lookupCfg kind = some c)
    (hty : c.spawnType = "air" ∨ c.spawnType = "ground")
    (hpos : 0 < c.spawnChance * esm * wesm * dtScaled) :
    spawnRollPasses kind 0 esm wesm dtScaled = true := by
  unfold spawnRollPasses
  rw [hc]
  dsimp only
  have h1 : (c.spawnType == "air" || c.spawnType == "ground") = true := by
    rcases hty with h | h <;> simp [h]
  rw [h1]
  simpa using hpos

/-- Witness for C8: the flyer passes the roll with unit multipliers. -/
theorem c8_roll_ignores_enablement_witness :
    spawnRollPasses "flyer" 0 1 1 (1/60) = true := by
  refine c8_roll_ignores_enablement "flyer"
    { spawnType := "air", spawnChance := 2/25, damage := 1, minLevel := 2, speed := 180 }
    1 1 (1/60) rfl (Or.inl rfl) (by norm_num)

/-! Claim C2: jump triggering. -/

/-- C2 counterexample: `jump_down` is a held flag (set on `KEYDOWN`, cleared
only on `KEYUP`), so a ground jump fires on any frame where it is held and
the player is grounded, not only on the frame of the press.  Concretely:
the key goes down during an airborne frame (no jump fires), stays held with
no further events, and on the next frame — the player having landed — the
ground jump fires even though the input made no false → true transition
that frame. -/
theorem c2_held_jump_counterexample :
    heldAfter [KeyEvent.keydown] false = true ∧
    jumpPhase (heldAfter [KeyEvent.keydown] false) false 1
      { velY := 250, onGround := false, jumpCount := 0 } =
      { velY := 250, onGround := false, jumpCount := 0 } ∧
    heldAfter [] (heldAfter [KeyEvent.keydown] false) = true ∧
    jumpPhase (heldAfter [] (heldAfter [KeyEvent.keydown] false)) false 1
      { velY := 0, onGround := true, jumpCount := 0 } =
      { velY := JUMP_STRENGTH, onGround := false, jumpCount := 1 } := by
  refine ⟨rfl, ?_, rfl, ?_⟩
  · show jumpPhase true false 1 _ = _
    unfold jumpPhase
    norm_num
  · show jumpPhase true false 1 _ = _
    unfold jumpPhase
    norm_num [JUMP_STRENGTH]

/-- C2 (amended): the jump block is level-triggered on the held flag.  On
any frame with the jump input down: a grounded player jumps with velocity
`JUMP_STRENGTH * jump_mult`, leaves the ground and gets `jump_count = 1`;
an airborne player with the double-jump upgrade and `jump_count = 1` jumps
at 0.9× strength and gets `jump_count = 2`; an airborne player in any other
count state is unchanged, so no third jump is possible until a later
grounded jump overwrites the count with 1 (grounding itself never resets
`jump_count`); with the input up nothing happens. -/
theorem c2_jump_block (jumpDown owned : Bool) (jumpMult : ℚ) (s : JumpState) :
    (jumpDown = true → s.onGround = true →
      jumpPhase jumpDown owned jumpMult s =
        { velY := JUMP_STRENGTH * jumpMult, onGround := false, jumpCount := 1 }) ∧
    (jumpDown = true → s.onGround = false → owned = true → s.jumpCount = 1 →
      jumpPhase jumpDown owned jumpMult s =
        { velY := JUMP_STRENGTH * (9/10) * jumpMult, onGround := false, jumpCount := 2 }) ∧
    (jumpDown = true → s.onGround = false → (owned = true ∧ s.jumpCount = 1 → False) →
      jumpPhase jumpDown owned jumpMult s = s) ∧
    (jumpDown = false → jumpPhase jumpDown owned jumpMult s = s) := by
  refine ⟨?_, ?_, ?_, ?_⟩
  · intro hd hg
    unfold jumpPhase
    rw [if_pos hd, if_pos hg]
  · intro hd hg ho hc
    unfold jumpPhase
    rw [if_pos hd, if_neg (by simp [hg]), if_pos (by simp [ho, hc]), hg]
  · intro hd hg hno
    unfold jumpPhase
    rw [if_pos hd, if_neg (by simp [hg]), if_neg]
    simp only [Bool.and_eq_true, beq_iff_eq]
    intro hcontra
    exact hno ⟨hcontra.1, hcontra.2⟩
  · intro hd
    unfold jumpPhase
    rw [if_neg (by simp [hd])]

/-- Witness for C2: a held jump on the ground, the 0.9× air jump, the
blocked third jump, and the no-input case, at concrete states. -/
theorem c2_jump_block_witness :
    jumpPhase true true 1 { velY := 0, onGround := true, jumpCount := 0 } =
      { velY := JUMP_STRENGTH * 1, onGround := false, jumpCount := 1 } ∧
    jumpPhase true true 1 { velY := -900, onGround := false, jumpCount := 1 } =
      { velY := JUMP_STRENGTH * (9/10) * 1, onGround := false, jumpCount := 2 } ∧
    jumpPhase true true 1 { velY := -810, onGround := false, jumpCount := 2 } =
      { velY := -810, onGround := false, jumpCount := 2 } ∧
    jumpPhase false true 1 { velY := 0, onGround := true, jumpCount := 0 } =
      { velY := 0, onGround := true, jumpCount := 0 } := by
  refine ⟨?_, ?_, ?_, ?_⟩
  · exact (c2_jump_block true true 1 _).1 rfl rfl
  · exact (c2_jump_block true true 1 _).2.1 rfl rfl rfl rfl
  · exact (c2_jump_block true true 1 _).2.2.1 rfl rfl (by intro h; exact absurd h.2 (by decide))
  · exact (c2_jump_block false true 1 _).2.2.2 rfl

/-! Claim C7: jumper cooldown initialization and reset. -/

/-- C7 counterexample: `spawn_ground_enemy` sets `jump_cooldown` to `0.0`
for every random draw, not to a random value — a uniform draw of 1/2 would
give cooldown `1.0` under the claimed `random.uniform(0, jump_interval)`
initialization, which is only a fallback for enemies lacking the field. -/
theorem c7_spawn_cooldown_counterexample :
    (spawnGroundEnemy "jumper" none 1920 1080 1 100).map (fun e => e.jumpCooldown) =
      some (some 0) ∧
    specUniformCooldownInit (1/2) = 1 ∧ (0 : ℚ) ≠ 1 := by
  refine ⟨rfl, ?_, by norm_num⟩
  unfold specUniformCooldownInit jumperJumpInterval
  norm_num

/-- C7 (amended): `spawn_ground_enemy` initializes the jumper's cooldown to
exactly `0.0` (so it jumps on its first update; the random
`[0, jump_interval]` value is only the `enemy.get` fallback for enemies
missing the field); on each update the cooldown decreases by `dt` and, upon
reaching zero or below, the vertical velocity is set to the configured jump
force scaled by `scale_factor` (before the same frame's 90%-gravity
integration) and the cooldown resets to exactly `jump_interval`; otherwise
the decremented cooldown is kept. -/
theorem c7_jumper_cooldown :
    (∀ (spriteSize : Option (ℤ × ℤ)) (screenW screenH : ℤ) (scale : ℚ) (rx : ℤ),
      (spawnGroundEnemy "jumper" spriteSize screenW screenH scale rx).map
        (fun e => e.jumpCooldown) = some (some 0)) ∧
    (∀ (e : GEnemy) (dt gameSpeed scale : ℚ) (screenW screenH : ℤ) (u cd : ℚ),
      e.jumpCooldown = some cd →
      (cd - dt ≤ 0 →
        (jumperUpdate e dt gameSpeed scale screenW screenH u).1.jumpCooldown =
          some jumperJumpInterval ∧
        (e.rect.y + pyInt ((jumperJumpForce * scale + GRAVITY * (9/10) * dt) * dt) + e.rect.h < screenH →
          (jumperUpdate e dt gameSpeed scale screenW screenH u).1.vy =
            jumperJumpForce * scale + GRAVITY * (9/10) * dt)) ∧
      (0 < cd - dt →
        (jumperUpdate e dt gameSpeed scale screenW screenH u).1.jumpCooldown =
          some (cd - dt))) := by
  constructor
  · intro spriteSize screenW screenH scale rx
    have hl : lookupCfg "jumper" =
        some { spawnType := "ground", spawnChance := 1/25, damage := 2, minLevel := 3, speed := 160 } := rfl
    unfold spawnGroundEnemy
    rw [hl]
    rfl
  · intro e dt gameSpeed scale screenW screenH u cd hcd
    constructor
    · intro hle
      constructor
      · unfold jumperUpdate
        simp only [hcd, Option.getD_some, if_pos hle]
      · intro hfloor
        unfold jumperUpdate
        simp only [hcd, Option.getD_some, if_pos hle]
        rw [if_neg (by omega)]
    · intro hgt
      unfold jumperUpdate
      simp only [hcd, Option.getD_some]
      rw [if_neg (by linarith)]

/-- Witness for C7: a freshly spawned jumper has cooldown 0; with cooldown
1/30 and a 1/30 s frame the jump fires (cooldown resets to 2, vertical
velocity becomes the scaled jump force plus the frame's gravity term), and
with cooldown 2 the timer simply decrements. -/
theorem c7_jumper_cooldown_witness :
    (spawnGroundEnemy "jumper" none 1280 720 1 50).map (fun e => e.jumpCooldown) =
      some (some 0) ∧
    (jumperUpdate
      { kind := "jumper", rect := { x := 800, y := 500, w := 48, h := 48 },
        vx := -160, vy := 0, t := 0, state := "run", baseY := 524,
        jumpCooldown := some (1/30) }
      (1/30) 220 1 1920 1080 (1/2)).1.jumpCooldown = some jumperJumpInterval ∧
    (jumperUpdate
      { kind := "jumper", rect := { x := 800, y := 500, w := 48, h := 48 },
        vx := -160, vy := 0, t := 0, state := "run", baseY := 524,
        jumpCooldown := some (1/30) }
      (1/30) 220 1 1920 1080 (1/2)).1.vy =
      jumperJumpForce * 1 + GRAVITY * (9/10) * (1/30) ∧
    (jumperUpdate
      { kind := "jumper", rect := { x := 800, y := 500, w := 48, h := 48 },
        vx := -160, vy := 0, t := 0, state := "run", baseY := 524,
        jumpCooldown := some 2 }
      (1/30) 220 1 1920 1080 (1/2)).1.jumpCooldown = some (2 - 1/30) := by
  have h := c7_jumper_cooldown
  have hfire := h.2
    { kind := "jumper", rect := { x := 800, y := 500, w := 48, h := 48 },
      vx := -160, vy := 0, t := 0, state := "run", baseY := 524,
      jumpCooldown := some (1/30) }
    (1/30) 220 1 1920 1080 (1/2) (1/30) rfl
  have hwait := h.2
    { kind := "jumper", rect := { x := 800, y := 500, w := 48, h := 48 },
      vx := -160, vy := 0, t := 0, state := "run", baseY := 524,
      jumpCooldown := some 2 }
    (1/30) 220 1 1920 1080 (1/2) 2 rfl
  have hfloor : (500 : ℤ) + pyInt ((jumperJumpForce * 1 + GRAVITY * (9/10) * (1/30)) * (1/30)) + 48 < 1080 := by
    have hv : (jumperJumpForce * 1 + GRAVITY * (9/10) * (1/30)) * (1/30 : ℚ) = -114/5 := by
      unfold jumperJumpForce GRAVITY
      norm_num
    rw [hv]
    norm_num [pyInt]
    decide
  refine ⟨h.1 none 1280 720 1 50, ?_, ?_, ?_⟩
  · exact (hfire.1 (by norm_num)).1
  · exact (hfire.1 (by norm_num)).2 hfloor
  · exact hwait.2 (by norm_num)

/-! Claim C9: custom-level round trip. -/

/-- Setting a pygame rect's center then reading it back returns the input. -/
lemma mkRectCenter_center (cx cy w h : ℤ) :
    (mkRectCenter cx cy w h).centerx = cx ∧ (mkRectCenter cx cy w h).centery = cy := by
  unfold mkRectCenter Rect.centerx Rect.centery
  constructor <;> dsimp only <;> omega

/-- C9: applying a custom level with 3 platforms, 2 coins and 1 enemy to a
freshly reset (or any) run state yields exactly 3/2/1 entries in the
platform/coin/enemy collections; platform rects take the input top-left
position and size, coin and enemy rects are centered at the input position
with the default `int(32*scale)` / `int(48*scale)` square sizes when no
sprite is available; all other state fields are untouched. -/
theorem c9_custom_level_roundtrip (data : LevelData) (scale : ℚ)
    (draws : ℕ → ℚ) (st : RState)
    (h3 : data.platforms.length = 3) (h2 : data.coins.length = 2)
    (h1 : data.enemies.length = 1) :
    (applyCustomLevelToState data none (fun _ => none) scale draws st).platforms.length = 3 ∧
    (applyCustomLevelToState data none (fun _ => none) scale draws st).coins.length = 2 ∧
    (applyCustomLevelToState data none (fun _ => none) scale draws st).enemies.length = 1 ∧
    (applyCustomLevelToState data none (fun _ => none) scale draws st).platforms.map
        (fun p => (p.rect.x, p.rect.y, p.rect.w, p.rect.h, p.ptype)) =
      data.platforms.map (fun e => (e.x, e.y, e.w, e.h, e.ptype)) ∧
    (applyCustomLevelToState data none (fun _ => none) scale draws st).coins.map
        (fun r => (r.centerx, r.centery, r.w, r.h)) =
      data.coins.map (fun c => (c.x, c.y, pyInt (32 * scale), pyInt (32 * scale))) ∧
    (applyCustomLevelToState data none (fun _ => none) scale draws st).enemies.map
        (fun e => (e.rect.centerx, e.rect.centery, e.rect.w, e.rect.h, e.kind)) =
      data.enemies.map (fun e => (e.x, e.y, pyInt (48 * scale), pyInt (48 * scale), e.kind)) ∧
    (applyCustomLevelToState data none (fun _ => none) scale draws st).health = st.health ∧
    (applyCustomLevelToState data none (fun _ => none) scale draws st).maxHealth = st.maxHealth ∧
    (applyCustomLevelToState data none (fun _ => none) scale draws st).level = st.level ∧
    (applyCustomLevelToState data none (fun _ => none) scale draws st).coinsCollectedRun =
      st.coinsCollectedRun := by
  unfold applyCustomLevelToState
  refine ⟨?_, ?_, ?_, ?_, ?_, ?_, rfl, rfl, rfl, rfl⟩
  · simp [List.enum_length, h3]
  · simp [h2]
  · simp [h1]
  · rw [List.map_map]
    have hcong : data.platforms.enum.map
        ((fun p => (p.rect.x, p.rect.y, p.rect.w, p.rect.h, p.ptype)) ∘
          (fun ie => customPlat (draws ie.1) ie.2)) =
        data.platforms.enum.map
          ((fun e => (e.x, e.y, e.w, e.h, e.ptype)) ∘ Prod.snd) := by
      apply List.map_eq_map_iff.mpr
      intro a _
      rfl
    rw [hcong, ← List.map_map, List.enum_map_snd]
  · rw [List.map_map]
    apply List.map_eq_map_iff.mpr
    intro c _
    show ((customCoin none scale c).centerx, (customCoin none scale c).centery,
        (customCoin none scale c).w, (customCoin none scale c).h) = _
    have hc := mkRectCenter_center c.x c.y (pyInt (32 * scale)) (pyInt (32 * scale))
    unfold customCoin coinSizeOf
    refine Prod.ext ?_ (Prod.ext ?_ rfl)
    · exact hc.1
    · exact hc.2
  · rw [List.map_map]
    apply List.map_eq_map_iff.mpr
    intro e _
    show ((customEnemy (fun _ => none) scale e).rect.centerx,
        (customEnemy (fun _ => none) scale e).rect.centery,
        (customEnemy (fun _ => none) scale e).rect.w,
        (customEnemy (fun _ => none) scale e).rect.h,
        (customEnemy (fun _ => none) scale e).kind) = _
    have hc := mkRectCenter_center e.x e.y (pyInt (48 * scale)) (pyInt (48 * scale))
    unfold customEnemy
    refine Prod.ext ?_ (Prod.ext ?_ rfl)
    · exact hc.1
    · exact hc.2

/-- Witness for C9 at a concrete custom level (3 platforms, 2 coins, 1
enemy, no sprites, scale 1) applied to the freshly reset run state. -/
theorem c9_custom_level_roundtrip_witness :
    (applyCustomLevelToState
      { platforms := [ { x := 100, y := 300, w := 200, h := 24, ptype := "normal" },
                       { x := 400, y := 500, w := 180, h := 24, ptype := "bounce" },
                       { x := 700, y := 400, w := 160, h := 24, ptype := "fragile" } ],
        coins := [ { x := 150, y := 250 }, { x := 450, y := 450 } ],
        enemies := [ { x := 800, y := 380, kind := "walker" } ] }
      none (fun _ => none) 1 (fun _ => 1) (resetState 3)).platforms.length = 3 ∧
    (applyCustomLevelToState
      { platforms := [ { x := 100, y := 300, w := 200, h := 24, ptype := "normal" },
                       { x := 400, y := 500, w := 180, h := 24, ptype := "bounce" },
                       { x := 700, y := 400, w := 160, h := 24, ptype := "fragile" } ],
        coins := [ { x := 150, y := 250 }, { x := 450, y := 450 } ],
        enemies := [ { x := 800, y := 380, kind := "walker" } ] }
      none (fun _ => none) 1 (fun _ => 1) (resetState 3)).coins.length = 2 ∧
    (applyCustomLevelToState
      { platforms := [ { x := 100, y := 300, w := 200, h := 24, ptype := "normal" },
                       { x := 400, y := 500, w := 180, h := 24, ptype := "bounce" },
                       { x := 700, y := 400, w := 160, h := 24, ptype := "fragile" } ],
        coins := [ { x := 150, y := 250 }, { x := 450, y := 450 } ],
        enemies := [ { x := 800, y := 380, kind := "walker" } ] }
      none (fun _ => none) 1 (fun _ => 1) (resetState 3)).enemies.length = 1 ∧
    (applyCustomLevelToState
      { platforms := [ { x := 100, y := 300, w := 200, h := 24, ptype := "normal" },
                       { x := 400, y := 500, w := 180, h := 24, ptype := "bounce" },
                       { x := 700, y := 400, w := 160, h := 24, ptype := "fragile" } ],
        coins := [ { x := 150, y := 250 }, { x := 450, y := 450 } ],
        enemies := [ { x := 800, y := 380, kind := "walker" } ] }
      none (fun _ => none) 1 (fun _ => 1) (resetState 3)).health = (resetState 3).health := by
  have h := c9_custom_level_roundtrip
    { platforms := [ { x := 100, y := 300, w := 200, h := 24, ptype := "normal" },
                     { x := 400, y := 500, w := 180, h := 24, ptype := "bounce" },
                     { x := 700, y := 400, w := 160, h := 24, ptype := "fragile" } ],
      coins := [ { x := 150, y := 250 }, { x := 450, y := 450 } ],
      enemies := [ { x := 800, y := 380, kind := "walker" } ] }
    1 (fun _ => 1) (resetState 3) rfl rfl rfl
  exact ⟨h.1, h.2.1, h.2.2.1, h.2.2.2.2.2.2.1⟩

/-! Claim C6: fragile platform removal. -/

/-- The stand-on pass preserves the number of platforms: it never removes a
platform, it only updates player state and per-platform fields. -/
lemma standOnPass_length (ss : StandState) (plats : List Plat) :
    ((standOnPass ss plats).2).length = plats.length := by
  induction plats generalizing ss with
  | nil => rfl
  | cons p rest ih =>
      unfold standOnPass
      dsimp only
      rw [List.length_cons, List.length_cons, ih]

/-- C6 counterexample: with `hits_to_break = 1`, one single stand-on event
(the player standing on a fresh fragile platform) raises the hit count to
the threshold, the platform survives the rest of that frame, and the very
next update pass removes it — there is no second stand-on event before
removal, contradicting the claim that removal follows the second one. -/
theorem c6_first_standon_removes_counterexample :
    (standOnStep
      { player := { x := 550, y := 740, w := 60, h := 60 }, velY := 0, onGround := false }
      { rect := { x := 500, y := 800, w := 200, h := 24 }, ptype := "fragile",
        vx := 0, vy := 0, fallStarted := false, fallTimer := 0, fragileHits := 0,
        depth := 1 }).2.fragileHits = 1 ∧
    ((standOnPass
      { player := { x := 550, y := 740, w := 60, h := 60 }, velY := 0, onGround := false }
      [ { rect := { x := 500, y := 800, w := 200, h := 24 }, ptype := "fragile",
          vx := 0, vy := 0, fallStarted := false, fallTimer := 0, fragileHits := 0,
          depth := 1 } ]).2).length = 1 ∧
    platUpdateOne 220 (1/60) 1080
      (standOnStep
        { player := { x := 550, y := 740, w := 60, h := 60 }, velY := 0, onGround := false }
        { rect := { x := 500, y := 800, w := 200, h := 24 }, ptype := "fragile",
          vx := 0, vy := 0, fallStarted := false, fallTimer := 0, fragileHits := 0,
          depth := 1 }).2 = none := by
  have hstand : standingOn
      { player := { x := 550, y := 740, w := 60, h := 60 }, velY := 0, onGround := false }
      { rect := { x := 500, y := 800, w := 200, h := 24 }, ptype := "fragile",
        vx := 0, vy := 0, fallStarted := false, fallTimer := 0, fragileHits := 0,
        depth := 1 } = true := by
    unfold standingOn Rect.bottom Rect.top Rect.left Rect.right Rect.centerx
    norm_num
  have hstep : (standOnStep
      { player := { x := 550, y := 740, w := 60, h := 60 }, velY := 0, onGround := false }
      { rect := { x := 500, y := 800, w := 200, h := 24 }, ptype := "fragile",
        vx := 0, vy := 0, fallStarted := false, fallTimer := 0, fragileHits := 0,
        depth := 1 }).2 =
      { rect := { x := 500, y := 800, w := 200, h := 24 }, ptype := "fragile",
        vx := 0, vy := 0, fallStarted := false, fallTimer := 0, fragileHits := 1,
        depth := 1 } := by
    unfold standOnStep
    rw [if_pos hstand]
    rfl
  refine ⟨by rw [hstep], standOnPass_length _ _, ?_⟩
  rw [hstep]
  unfold platUpdateOne
  norm_num [hitsToBreak]

/-- C6 (amended): a fragile platform whose hit count has reached the
`hits_to_break` threshold is removed by the next update pass (before
movement culling), not by the stand-on pass in which the count was reached
— the platform remains present for the remainder of that frame; each
stand-on event increments the counter by one; with the configured
`hits_to_break = 1` the platform is therefore removed on the update pass
immediately following its first stand-on event. -/
theorem c6_fragile_break (gameSpeed dtScaled : ℚ) (screenH : ℤ)
    (p : Plat) (ss : StandState) :
    (p.ptype = "fragile" → hitsToBreak ≤ p.fragileHits →
      platUpdateOne gameSpeed dtScaled screenH p = none) ∧
    (standingOn ss p = true → p.ptype = "fragile" →
      (standOnStep ss p).2.fragileHits = p.fragileHits + 1 ∧
      (standOnStep ss p).2.ptype = "fragile") ∧
    ((standOnPass ss [p]).2).length = 1 ∧
    (standingOn ss p = true → p.ptype = "fragile" → p.fragileHits = 0 →
      platUpdateOne gameSpeed dtScaled screenH (standOnStep ss p).2 = none) := by
  have hbreak : ∀ q : Plat, q.ptype = "fragile" → hitsToBreak ≤ q.fragileHits →
      platUpdateOne gameSpeed dtScaled screenH q = none := by
    intro q hq hh
    unfold platUpdateOne
    rw [hq]
    have : (("fragile" == "fall") : Bool) = false := rfl
    simp only [this, Bool.false_and, if_neg (by simp : ¬ (false = true))]
    rw [if_pos]
    simp only [beq_self_eq_true, Bool.true_and, decide_eq_true_eq]
    exact hh
  have hstepfrag : standingOn ss p = true → p.ptype = "fragile" →
      (standOnStep ss p).2.fragileHits = p.fragileHits + 1 ∧
      (standOnStep ss p).2.ptype = "fragile" := by
    intro hs hf
    unfold standOnStep
    rw [if_pos hs]
    dsimp only
    rw [hf]
    constructor <;> rfl
  refine ⟨hbreak p, hstepfrag, standOnPass_length _ _, ?_⟩
  intro hs hf h0
  have h1 := hstepfrag hs hf
  exact hbreak _ h1.2 (by rw [h1.1, h0]; exact le_refl 1)

/-- Witness for C6 at the concrete scenario of the counterexample setup:
breaking threshold on a loaded platform, one increment per stand-on, no
removal during the stand-on pass. -/
theorem c6_fragile_break_witness :
    platUpdateOne 220 (1/60) 1080
      { rect := { x := 500, y := 800, w := 200, h := 24 }, ptype := "fragile",
        vx := 0, vy := 0, fallStarted := false, fallTimer := 0, fragileHits := 1,
        depth := 1 } = none ∧
    ((standOnPass
      { player := { x := 550, y := 740, w := 60, h := 60 }, velY := 0, onGround := true }
      [ { rect := { x := 500, y := 800, w := 200, h := 24 }, ptype := "fragile",
          vx := 0, vy := 0, fallStarted := false, fallTimer := 0, fragileHits := 1,
          depth := 1 } ]).2).length = 1 := by
  have h := c6_fragile_break 220 (1/60) 1080
    { rect := { x := 500, y := 800, w := 200, h := 24 }, ptype := "fragile",
      vx := 0, vy := 0, fallStarted := false, fallTimer := 0, fragileHits := 1,
      depth := 1 }
    { player := { x := 550, y := 740, w := 60, h := 60 }, velY := 0, onGround := true }
  exact ⟨h.1 rfl (le_refl 1), h.2.2.1⟩

/-! Claims C3 and C4: damage resolution and health bounds. -/

/-- On non-negative rationals, Python truncation agrees with the floor. -/
lemma pyInt_eq_floor (q : ℚ) (h : 0 ≤ q) : pyInt q = ⌊q⌋ := by
  unfold pyInt
  rw [Rat.floor_def]
  rw [Int.tdiv_eq_ediv (Rat.num_nonneg.mpr h) (by positivity)]

/-- Python truncation preserves non-negativity. -/
lemma pyInt_nonneg (q : ℚ) (h : 0 ≤ q) : 0 ≤ pyInt q := by
  rw [pyInt_eq_floor q h]
  exact Int.floor_nonneg.mpr h

/-- Every configured (or unknown) enemy kind has non-negative damage. -/
lemma damageOf_nonneg (kind : String) : 0 ≤ damageOf kind := by
  unfold damageOf
  cases hk : lookupCfg kind with
  | none => exact le_refl 0
  | some c =>
      unfold lookupCfg at hk
      rcases Option.map_eq_some'.mp hk with ⟨p, hfind, hpc⟩
      have hmem : p ∈ ENEMY_CONFIG := List.mem_of_find?_eq_some hfind
      have hall : ∀ q ∈ ENEMY_CONFIG, 0 ≤ q.2.damage := by decide
      rw [← hpc]
      exact hall p hmem

/-- Unfolding the damage loop one enemy at a time. -/
lemma damageFold_cons (scale edm wedm : ℚ) (pr : Rect) (e : Enemy)
    (rest : List Enemy) (s : DmgState) :
    damageFold scale edm wedm pr (e :: rest) s =
      damageFold scale edm wedm pr rest
        (if collideRect e.rect pr then applyHit scale edm wedm pr e s else s) := rfl

/-- The damage loop subtracts the damage of every colliding enemy — all of
them, with no early exit. -/
lemma damageFold_health (scale edm wedm : ℚ) (pr : Rect) (es : List Enemy)
    (s : DmgState) :
    (damageFold scale edm wedm pr es s).health =
      s.health - ((es.filter fun e => collideRect e.rect pr).map
        fun e => enemyDamage e.kind edm wedm).sum := by
  induction es generalizing s with
  | nil => simp [damageFold]
  | cons e rest ih =>
      rw [damageFold_cons]
      by_cases h : collideRect e.rect pr
      · rw [if_pos h, ih]
        simp [List.filter_cons, h, applyHit]
        omega
      · rw [if_neg h, ih]
        simp [List.filter_cons, h]

/-- The damage loop's effect on the flag and timer fields: set exactly when
some enemy collides. -/
lemma damageFold_flags (scale edm wedm : ℚ) (pr : Rect) (es : List Enemy)
    (s : DmgState) :
    ((damageFold scale edm wedm pr es s).tookDamage =
        (s.tookDamage || es.any fun e => collideRect e.rect pr)) ∧
    ((damageFold scale edm wedm pr es s).invTimer =
        if (es.any fun e => collideRect e.rect pr) = true then INVINCIBLE_TIME
        else s.invTimer) ∧
    ((damageFold scale edm wedm pr es s).knockTimer =
        if (es.any fun e => collideRect e.rect pr) = true then KNOCKBACK_TIME
        else s.knockTimer) := by
  induction es generalizing s with
  | nil => simp [damageFold]
  | cons e rest ih =>
      rw [damageFold_cons]
      by_cases h : collideRect e.rect pr
      · rw [if_pos h]
        rcases ih (applyHit scale edm wedm pr e s) with ⟨h1, h2, h3⟩
        refine ⟨?_, ?_, ?_⟩
        · rw [h1]
          simp [applyHit, List.any_cons, h]
        · rw [h2]
          simp only [List.any_cons, h, Bool.true_or, if_pos rfl]
          by_cases hr : (rest.any fun e => collideRect e.rect pr) = true
          · rw [if_pos hr]
            rfl
          · rw [if_neg hr]
            rfl
        · rw [h3]
          simp only [List.any_cons, h, Bool.true_or, if_pos rfl]
          by_cases hr : (rest.any fun e => collideRect e.rect pr) = true
          · rw [if_pos hr]
            rfl
          · rw [if_neg hr]
            rfl
      · rw [if_neg h]
        rcases ih s with ⟨h1, h2, h3⟩
        refine ⟨?_, ?_, ?_⟩
        · rw [h1]
          simp [List.any_cons, h]
        · rw [h2]
          simp [List.any_cons, h]
        · rw [h3]
          simp [List.any_cons, h]

/-- C3: damage resolution is skipped entirely while `invincible_timer > 0`
(only the timer decrements); otherwise every enemy whose rectangle
intersects the player's applies `floor(kind.damage * enemy_damage_mult *
world_enemy_damage_mult)` to health independently (the loop has no early
exit, so simultaneous overlaps stack), sets `took_damage`, and starts the
invincibility and knockback timers. -/
theorem c3_damage_resolution (scale edm wedm dt : ℚ) (pr : Rect)
    (es : List Enemy) (s : DmgState) (hedm : 0 ≤ edm) (hwedm : 0 ≤ wedm) :
    (0 < s.invTimer →
      damageStep scale edm wedm dt pr es s = { s with invTimer := s.invTimer - dt }) ∧
    (s.invTimer ≤ 0 →
      (damageStep scale edm wedm dt pr es s).health =
        s.health - ((es.filter fun e => collideRect e.rect pr).map
          fun e => ⌊(damageOf e.kind : ℚ) * edm * wedm⌋).sum ∧
      (damageStep scale edm wedm dt pr es s).tookDamage =
        (s.tookDamage || es.any fun e => collideRect e.rect pr) ∧
      ((es.any fun e => collideRect e.rect pr) = true →
        (damageStep scale edm wedm dt pr es s).invTimer = INVINCIBLE_TIME ∧
        (damageStep scale edm wedm dt pr es s).knockTimer = KNOCKBACK_TIME)) := by
  constructor
  · intro h
    unfold damageStep
    rw [if_pos h]
  · intro h
    have hstep : damageStep scale edm wedm dt pr es s = damageFold scale edm wedm pr es s := by
      unfold damageStep
      rw [if_neg (not_lt.mpr h)]
    have hflags := damageFold_flags scale edm wedm pr es s
    refine ⟨?_, ?_, ?_⟩
    · rw [hstep, damageFold_health]
      have hmap : ((es.filter fun e => collideRect e.rect pr).map
            fun e => enemyDamage e.kind edm wedm) =
          ((es.filter fun e => collideRect e.rect pr).map
            fun e => ⌊(damageOf e.kind : ℚ) * edm * wedm⌋) := by
        apply List.map_eq_map_iff.mpr
        intro e _
        unfold enemyDamage
        apply pyInt_eq_floor
        have h0 : (0 : ℚ) ≤ (damageOf e.kind : ℚ) := by
          exact_mod_cast damageOf_nonneg e.kind
        exact mul_nonneg (mul_nonneg h0 hedm) hwedm
      rw [hmap]
    · rw [hstep]
      exact hflags.1
    · intro hany
      rw [hstep]
      exact ⟨by rw [hflags.2.1, if_pos hany], by rw [hflags.2.2, if_pos hany]⟩

/-- Witness for C3: two enemies (a walker and a jumper) overlap the player
in the same frame with no invincibility: both hits land (1 + 2 damage),
`took_damage` is set and both timers start; with the timer positive the
whole step reduces to the timer decrement. -/
theorem c3_damage_resolution_witness :
    (damageStep 1 1 1 (1/60) { x := 100, y := 900, w := 60, h := 60 }
      [ { kind := "walker", rect := { x := 120, y := 910, w := 52, h := 52 } },
        { kind := "jumper", rect := { x := 90, y := 920, w := 48, h := 48 } } ]
      { health := 3, tookDamage := false, invTimer := 0, knockTimer := 0,
        knockDx := 0, shakeTimer := 0 }).health = 0 ∧
    (damageStep 1 1 1 (1/60) { x := 100, y := 900, w := 60, h := 60 }
      [ { kind := "walker", rect := { x := 120, y := 910, w := 52, h := 52 } },
        { kind := "jumper", rect := { x := 90, y := 920, w := 48, h := 48 } } ]
      { health := 3, tookDamage := false, invTimer := 0, knockTimer := 0,
        knockDx := 0, shakeTimer := 0 }).tookDamage = true ∧
    (damageStep 1 1 1 (1/60) { x := 100, y := 900, w := 60, h := 60 }
      [ { kind := "walker", rect := { x := 120, y := 910, w := 52, h := 52 } },
        { kind := "jumper", rect := { x := 90, y := 920, w := 48, h := 48 } } ]
      { health := 3, tookDamage := false, invTimer := 0, knockTimer := 0,
        knockDx := 0, shakeTimer := 0 }).invTimer = INVINCIBLE_TIME ∧
    damageStep 1 1 1 (1/60) { x := 100, y := 900, w := 60, h := 60 }
      [ { kind := "walker", rect := { x := 120, y := 910, w := 52, h := 52 } } ]
      { health := 3, tookDamage := false, invTimer := 1/2, knockTimer := 0,
        knockDx := 0, shakeTimer := 0 } =
      { health := 3, tookDamage := false, invTimer := 1/2 - 1/60, knockTimer := 0,
        knockDx := 0, shakeTimer := 0 } := by
  have h := c3_damage_resolution 1 1 1 (1/60) { x := 100, y := 900, w := 60, h := 60 }
    [ { kind := "walker", rect := { x := 120, y := 910, w := 52, h := 52 } },
      { kind := "jumper", rect := { x := 90, y := 920, w := 48, h := 48 } } ]
    { health := 3, tookDamage := false, invTimer := 0, knockTimer := 0,
      knockDx := 0, shakeTimer := 0 } (by norm_num) (by norm_num)
  have hskip := c3_damage_resolution 1 1 1 (1/60) { x := 100, y := 900, w := 60, h := 60 }
    [ { kind := "walker", rect := { x := 120, y := 910, w := 52, h := 52 } } ]
    { health := 3, tookDamage := false, invTimer := 1/2, knockTimer := 0,
      knockDx := 0, shakeTimer := 0 } (by norm_num) (by norm_num)
  have hc := h.2 (le_refl 0)
  have hany : (([ ({ kind := "walker", rect := { x := 120, y := 910, w := 52, h := 52 } } : Enemy),
      { kind := "jumper", rect := { x := 90, y := 920, w := 48, h := 48 } } ]).any
        fun e => collideRect e.rect { x := 100, y := 900, w := 60, h := 60 }) = true := by
    decide
  have hfilter : (([ ({ kind := "walker", rect := { x := 120, y := 910, w := 52, h := 52 } } : Enemy),
      { kind := "jumper", rect := { x := 90, y := 920, w := 48, h := 48 } } ]).filter
        fun e => collideRect e.rect { x := 100, y := 900, w := 60, h := 60 }) =
      [ { kind := "walker", rect := { x := 120, y := 910, w := 52, h := 52 } },
        { kind := "jumper", rect := { x := 90, y := 920, w := 48, h := 48 } } ] := by
    decide
  refine ⟨?_, ?_, (hc.2.2 hany).1, hskip.1 (by norm_num)⟩
  · rw [hc.1, hfilter]
    norm_num [List.map, (show damageOf "walker" = 1 from rfl),
      (show damageOf "jumper" = 2 from rfl)]
  · rw [hc.2.1, hany]
    rfl

/-- C4 counterexample: a player with health 1 hit by a brute (damage 3,
unit multipliers) drops to health −2: the stored health is not clamped at
0 (only the HUD display is), so the invariant `health ∈ [0, max_health]`
fails on the fatal frame; the kill check still ends the run. -/
theorem c4_negative_health_counterexample :
    (damageStep 1 1 1 (1/60) { x := 100, y := 900, w := 60, h := 60 }
      [ { kind := "brute", rect := { x := 120, y := 910, w := 60, h := 60 } } ]
      { health := 1, tookDamage := false, invTimer := 0, knockTimer := 0,
        knockDx := 0, shakeTimer := 0 }).health = -2 ∧
    ((-2 : ℤ) < 0) ∧ killTriggers (-2) = true := by
  refine ⟨?_, by decide, by decide⟩
  show (damageFold 1 1 1 { x := 100, y := 900, w := 60, h := 60 } _ _).health = -2
  rw [damageFold_health]
  have hfilter : (([ ({ kind := "brute", rect := { x := 120, y := 910, w := 60, h := 60 } } : Enemy) ]).filter
      fun e => collideRect e.rect { x := 100, y := 900, w := 60, h := 60 }) =
      [ { kind := "brute", rect := { x := 120, y := 910, w := 60, h := 60 } } ] := by
    decide
  rw [hfilter]
  have hdmg : enemyDamage "brute" 1 1 = 3 := by
    unfold enemyDamage
    norm_num [(show damageOf "brute" = 3 from rfl), pyInt]
  norm_num [List.map, hdmg]

/-- C4 (amended): with non-negative damage multipliers the damage step
never increases health, so health never exceeds `max_health` during a run
(it starts there on reset and nothing else raises it); reaching 0 — or
falling below it, which the fatal hit can cause since the stored health is
not clamped — ends the run terminally; only the displayed HUD health is
clamped to `[0, min(max_health, 10)]`. -/
theorem c4_health_bounds (scale edm wedm dt : ℚ) (pr : Rect) (es : List Enemy)
    (s : DmgState) (maxH hp : ℤ) (hedm : 0 ≤ edm) (hwedm : 0 ≤ wedm)
    (hmax : s.health ≤ maxH) :
    (damageStep scale edm wedm dt pr es s).health ≤ s.health ∧
    (damageStep scale edm wedm dt pr es s).health ≤ maxH ∧
    (killTriggers hp = true ↔ hp ≤ 0) ∧
    (0 ≤ maxH → 0 ≤ displayHealth hp maxH ∧ displayHealth hp maxH ≤ min maxH 10) ∧
    (resetState maxH).health = maxH := by
  have hdec : (damageStep scale edm wedm dt pr es s).health ≤ s.health := by
    unfold damageStep
    by_cases h : 0 < s.invTimer
    · rw [if_pos h]
    · rw [if_neg h, damageFold_health]
      have hsum : 0 ≤ ((es.filter fun e => collideRect e.rect pr).map
          fun e => enemyDamage e.kind edm wedm).sum := by
        apply List.sum_nonneg
        intro x hx
        rcases List.mem_map.mp hx with ⟨e, _, hex⟩
        rw [← hex]
        unfold enemyDamage
        apply pyInt_nonneg
        have h0 : (0 : ℚ) ≤ (damageOf e.kind : ℚ) := by
          exact_mod_cast damageOf_nonneg e.kind
        exact mul_nonneg (mul_nonneg h0 hedm) hwedm
      omega
  refine ⟨hdec, le_trans hdec hmax, ?_, ?_, rfl⟩
  · unfold killTriggers
    simp only [decide_eq_true_eq]
  · intro hm
    unfold displayHealth
    exact clamp_mem hp 0 (min maxH 10) (by omega)

/-- Witness for C4: the brute scenario of the counterexample satisfies the
amended bounds (health falls, stays at or below max), the kill check fires
at −2, and the HUD clamp keeps the displayed value in range. -/
theorem c4_health_bounds_witness :
    (damageStep 1 1 1 (1/60) { x := 100, y := 900, w := 60, h := 60 }
      [ { kind := "brute", rect := { x := 120, y := 910, w := 60, h := 60 } } ]
      { health := 1, tookDamage := false, invTimer := 0, knockTimer := 0,
        knockDx := 0, shakeTimer := 0 }).health ≤ 1 ∧
    (damageStep 1 1 1 (1/60) { x := 100, y := 900, w := 60, h := 60 }
      [ { kind := "brute", rect := { x := 120, y := 910, w := 60, h := 60 } } ]
      { health := 1, tookDamage := false, invTimer := 0, knockTimer := 0,
        knockDx := 0, shakeTimer := 0 }).health ≤ 3 ∧
    (killTriggers (-2) = true ↔ (-2 : ℤ) ≤ 0) ∧
    (0 ≤ displayHealth (-2) 3 ∧ displayHealth (-2) 3 ≤ min 3 10) ∧
    (resetState 3).health = 3 := by
  have h := c4_health_bounds 1 1 1 (1/60) { x := 100, y := 900, w := 60, h := 60 }
    [ { kind := "brute", rect := { x := 120, y := 910, w := 60, h := 60 } } ]
    { health := 1, tookDamage := false, invTimer := 0, knockTimer := 0,
      knockDx := 0, shakeTimer := 0 } 3 (-2) (by norm_num) (by norm_num) (by norm_num)
  exact ⟨h.1, h.2.1, h.2.2.1, h.2.2.2.1 (by norm_num), h.2.2.2.2⟩

/-! Claim C10: spawn weights are always positive and every enabled kind is
pickable. -/

/-- `get_base_spawn_weight` is strictly positive for every kind. -/
lemma getBaseSpawnWeight_pos (kind : String) : 0 < getBaseSpawnWeight kind := by
  unfold getBaseSpawnWeight
  dsimp only
  split
  · assumption
  · norm_num

/-- The level-scaled spawn weight is strictly positive for every kind and
level. -/
lemma getLevelScaledSpawnWeight_pos (kind : String) (level : ℕ) :
    0 < getLevelScaledSpawnWeight kind level := by
  unfold getLevelScaledSpawnWeight
  have hb := getBaseSpawnWeight_pos kind
  cases hc : levelScalingCfg kind with
  | none => simpa using hb
  | some p =>
      obtain ⟨threshold, perLevel⟩ := p
      dsimp only
      split
      · exact hb
      · rename_i hnot
        push_neg at hnot
        have h1 : (0 : ℚ) ≤ max 0 ((level : ℚ) - (threshold : ℚ)) := le_max_left 0 _
        have h2 : (0 : ℚ) < perLevel := hnot.2
        have h3 : (0 : ℚ) < 1 + max 0 ((level : ℚ) - (threshold : ℚ)) * perLevel := by
          nlinarith [mul_nonneg h1 (le_of_lt h2)]
        exact mul_pos hb h3

/-- Every kind enabled at a level lands in the spawn table with its scaled
weight. -/
lemma mem_buildSpawnTable (level : ℕ) (kind : String)
    (hk : kind ∈ getEnabledEnemyKinds level) :
    (kind, getLevelScaledSpawnWeight kind level) ∈ buildSpawnTable level := by
  unfold buildSpawnTable
  apply List.mem_filterMap.mpr
  refine ⟨kind, hk, ?_⟩
  dsimp only
  rw [if_pos (getLevelScaledSpawnWeight_pos kind level)]

/-- All weights stored in the spawn table are positive. -/
lemma buildSpawnTable_pos (level : ℕ) :
    ∀ p ∈ buildSpawnTable level, 0 < p.2 := by
  intro p hp
  unfold buildSpawnTable at hp
  rcases List.mem_filterMap.mp hp with ⟨k, _, hf⟩
  dsimp only at hf
  split at hf
  · cases hf
    assumption
  · cases hf

/-- The weight sum of a table of non-negative weights is non-negative. -/
lemma weightSum_nonneg (t : List (String × ℚ)) (h : ∀ p ∈ t, 0 ≤ p.2) :
    0 ≤ weightSum t := by
  induction t with
  | nil => simp [weightSum]
  | cons q rest ih =>
      have hq := h q (List.mem_cons_self q rest)
      have hr := ih fun p hp => h p (List.mem_cons_of_mem q hp)
      unfold weightSum at *
      simp only [List.map_cons, List.sum_cons]
      linarith

/-- The weight sum of a non-empty table of positive weights is positive. -/
lemma weightSum_pos (t : List (String × ℚ)) (hpos : ∀ p ∈ t, 0 < p.2)
    (hne : t ≠ []) : 0 < weightSum t := by
  cases t with
  | nil => exact absurd rfl hne
  | cons q rest =>
      have hq := hpos q (List.mem_cons_self q rest)
      have hr : 0 ≤ weightSum rest :=
        weightSum_nonneg rest fun p hp => le_of_lt (hpos p (List.mem_cons_of_mem q hp))
      unfold weightSum at *
      simp only [List.map_cons, List.sum_cons]
      linarith

/-- For every entry of a positive-weight table there is a cumulative-scan
position that selects it. -/
lemma pickScan_exists (t : List (String × ℚ)) :
    ∀ acc : ℚ, (∀ p ∈ t, 0 < p.2) → ∀ p ∈ t,
      ∃ r, acc < r ∧ r < acc + weightSum t ∧ pickScan r acc t = some p.1 := by
  induction t with
  | nil =>
      intro acc _ p hp
      exact absurd hp (List.not_mem_nil p)
  | cons q rest ih =>
      intro acc hpos p hp
      obtain ⟨k, w⟩ := q
      have hw : 0 < w := hpos (k, w) (List.mem_cons_self (k, w) rest)
      have hsum : weightSum ((k, w) :: rest) = w + weightSum rest := by
        unfold weightSum
        simp
      have hrest : 0 ≤ weightSum rest :=
        weightSum_nonneg rest fun p hp => le_of_lt (hpos p (List.mem_cons_of_mem (k, w) hp))
      rcases List.mem_cons.mp hp with heq | hmem
      · subst heq
        refine ⟨acc + w / 2, by linarith, ?_, ?_⟩
        · rw [hsum]
          linarith
        · unfold pickScan
          rw [if_pos (by linarith)]
      · obtain ⟨r, h1, h2, h3⟩ :=
          ih (acc + w) (fun p hp => hpos p (List.mem_cons_of_mem (k, w) hp)) p hmem
        refine ⟨r, by linarith, ?_, ?_⟩
        · rw [hsum]
          linarith
        · unfold pickScan
          rw [if_neg (by linarith)]
          exact h3

/-- C10: `get_base_spawn_weight` is strictly positive for every configured
kind — the zero-`spawn_chance` kinds (`walker`, `brute`, `swift`) receive
the fallback weight 0.02 — and every kind enabled at a level appears in the
level's spawn table and can be selected by `pick_enemy_kind` for some
random draw in `[0, 1)`. -/
theorem c10_spawn_weight_positive (kind : String) (level : ℕ)
    (hk : kind ∈ getEnabledEnemyKinds level) :
    0 < getBaseSpawnWeight kind ∧
    getBaseSpawnWeight "brute" = 1/50 ∧
    getBaseSpawnWeight "swift" = 1/50 ∧
    getBaseSpawnWeight "walker" = 1/50 ∧
    (kind, getLevelScaledSpawnWeight kind level) ∈ buildSpawnTable level ∧
    ∃ r, 0 ≤ r ∧ r < 1 ∧ pickEnemyKind level r = some kind := by
  have htable := mem_buildSpawnTable level kind hk
  have hpos := buildSpawnTable_pos level
  have hne : buildSpawnTable level ≠ [] := List.ne_nil_of_mem htable
  have htot : 0 < weightSum (buildSpawnTable level) := weightSum_pos _ hpos hne
  obtain ⟨r, hr1, hr2, hr3⟩ := pickScan_exists (buildSpawnTable level) 0 hpos _ htable
  have hbrute : lookupCfg "brute" =
      some { spawnType := "ground", spawnChance := 0, damage := 3, minLevel := 1, speed := 110 } := rfl
  have hswift : lookupCfg "swift" =
      some { spawnType := "ground", spawnChance := 0, damage := 1, minLevel := 1, speed := 220 } := rfl
  have hwalker : lookupCfg "walker" =
      some { spawnType := "platform", spawnChance := 0, damage := 1, minLevel := 1, speed := 140 } := rfl
  refine ⟨getBaseSpawnWeight_pos kind,
    by unfold getBaseSpawnWeight; rw [hbrute]; norm_num,
    by unfold getBaseSpawnWeight; rw [hswift]; norm_num,
    by unfold getBaseSpawnWeight; rw [hwalker]; norm_num,
    htable, r / weightSum (buildSpawnTable level), ?_, ?_, ?_⟩
  · exact le_of_lt (div_pos (by linarith) htot)
  · rw [div_lt_one htot]
    linarith
  · unfold pickEnemyKind
    dsimp only
    rw [if_neg (by simp [List.isEmpty_iff, hne])]
    rw [if_neg (not_le.mpr htot)]
    rw [div_mul_cancel₀ r (ne_of_gt htot), hr3]

/-- Witness for C10: `walker` (a zero-`spawn_chance` kind) is enabled at
level 1, sits in the level-1 spawn table with its fallback-derived weight,
and some draw picks it. -/
theorem c10_spawn_weight_positive_witness :
    0 < getBaseSpawnWeight "walker" ∧
    ("walker", getLevelScaledSpawnWeight "walker" 1) ∈ buildSpawnTable 1 ∧
    ∃ r, 0 ≤ r ∧ r < 1 ∧ pickEnemyKind 1 r = some "walker" := by
  have h := c10_spawn_weight_positive "walker" 1 (by decide)
  exact ⟨h.1, h.2.2.2.2.1, h.2.2.2.2.2⟩

end Slimey
